import Mathlib

/-!
Shallow embedding of the gameplay simulation of `src/scenes/MainScene.ts`
(a vertical block-stacking arcade game). Scene fields become a `GameState`
record, the scene methods become state-passing functions, and the two
sources of randomness (the spawn x-coordinate and the initial movement
direction of a new block) become explicit parameters. Continuous
quantities (positions, velocities, speeds, time deltas) are rationals;
scores, levels and streaks are naturals. The per-frame `deltaTime` is the
already-normalised `(time - lastFrameTime) / 16.667` value the `update`
method computes, taken here as a parameter.
-/

namespace Rascacielos

/-- Math.abs on rationals. -/
def mathAbs (x : ℚ) : ℚ := if x < 0 then -x else x

/-- Phaser.Math.Clamp: `Math.max(min, Math.min(max, value))`. -/
def clamp (value lo hi : ℚ) : ℚ := max lo (min value hi)

/-- Phaser.Math.Linear: `(p1 - p0) * t + p0`. -/
def linear (p0 p1 t : ℚ) : ℚ := (p1 - p0) * t + p0

/-- BLOCK_BASE_HEIGHT constant (MainScene.ts line 39). -/
def BLOCK_BASE_HEIGHT : ℚ := 50

/-- MAX_MULTIPLIER constant (line 51). -/
def MAX_MULTIPLIER : ℕ := 5

/-- BLOCK_ACCELERATION constant 0.2 (line 66). -/
def BLOCK_ACCELERATION : ℚ := 1/5

/-- MAX_BLOCK_SPEED constant (line 67). -/
def MAX_BLOCK_SPEED : ℚ := 8

/-- BLOCK_SNAP_THRESHOLD constant (line 68). -/
def BLOCK_SNAP_THRESHOLD : ℚ := 10

/-- BLOCK_BOUNCE_ELASTICITY constant 0.8 (line 69). -/
def BLOCK_BOUNCE_ELASTICITY : ℚ := 4/5

/-- GROUND_OFFSET constant (line 73). -/
def GROUND_OFFSET : ℚ := 100

/-- A block type entry of the `blockTypes` table (width, height, speed;
the colour is presentation only and omitted). -/
structure BlockConfig where
  width : ℚ
  height : ℚ
  speed : ℚ
  deriving Repr, DecidableEq

/-- The `blockTypes` table (lines 77-82): standard, wide, narrow, fast. -/
def blockTypes : List BlockConfig :=
  [ { width := 100, height := 50, speed := 2 },
    { width := 150, height := 50, speed := 5/2 },
    { width := 80, height := 50, speed := 3 },
    { width := 100, height := 50, speed := 7/2 } ]

/-- A rectangle game object, reduced to the gameplay-relevant fields. -/
structure Block where
  x : ℚ
  y : ℚ
  width : ℚ
  height : ℚ
  deriving Repr, DecidableEq

/-- The gameplay-relevant mutable fields of `MainScene`, plus `storage`
modelling the external `localStorage` slot `cityBloxxState.highScore`.
`stackedBlocks` keeps the source's order: bottom first, top of the stack
last (`stackedBlocks[stackedBlocks.length - 1]`). -/
structure GameState where
  currentBlock : Option Block
  stackedBlocks : List Block
  score : ℕ
  highScore : ℕ
  gameOver : Bool
  isPaused : Bool
  moveSpeed : ℚ
  gameWidth : ℚ
  gameHeight : ℚ
  level : ℕ
  perfectStreak : ℕ
  currentVelocity : ℚ
  baseY : ℚ
  storage : Option ℕ
  deriving Repr, DecidableEq

/-- The `placementGuide` field (line 35) is declared as an optional
`Phaser.GameObjects.Line` but is never assigned anywhere in the program,
so its truthiness test in `update` (line 310) is constantly false. -/
def placementGuide : Bool := false

/-- getCurrentBlockConfig (lines 357-370): picks a base shape from
`blockTypes` by level (three levels per shape, cycling), then adds a
level-based speed increase capped at +2. -/
def getCurrentBlockConfig (level : ℕ) : BlockConfig :=
  let index := min (((level - 1) / 3) % blockTypes.length) (blockTypes.length - 1)
  let baseConfig := blockTypes.getD index { width := 100, height := 50, speed := 2 }
  let speedIncrease := min (((level - 1 : ℕ) : ℚ) * (1/10)) 2
  { baseConfig with speed := baseConfig.speed + speedIncrease }

/-- updateHighScore (lines 497-511): when `score > highScore`, copy the
score into `highScore` and persist it to storage. -/
def updateHighScore (s : GameState) : GameState :=
  if s.highScore < s.score then
    { s with highScore := s.score, storage := some s.score }
  else s

/-- updateScore (lines 743-765): add the flat 10 points, refresh the high
score, and level up when the stack size is a multiple of 5. NOTE: this
method is defined in the source but never invoked from anywhere. -/
def updateScore (s : GameState) : GameState :=
  let s1 := { s with score := s.score + 10 }
  let s2 := updateHighScore s1
  if s2.stackedBlocks.length % 5 == 0 then { s2 with level := s2.level + 1 } else s2

/-- handlePerfectPlacement (lines 682-686, gameplay part): increment the
streak, cap the multiplier at MAX_MULTIPLIER, add `50 * multiplier`. -/
def handlePerfectPlacement (s : GameState) : GameState :=
  let streak := s.perfectStreak + 1
  let multiplier := min streak MAX_MULTIPLIER
  let bonusPoints := 50 * multiplier
  { s with perfectStreak := streak, score := s.score + bonusPoints }

/-- handleGameOver (line 588, gameplay part): set the game-over flag. -/
def handleGameOver (s : GameState) : GameState :=
  { s with gameOver := true }

/-- createNewBlock (lines 389-488, gameplay part): spawn the next active
block one block-height above the top of the stack (or at `baseY` for an
empty stack) at a random x (`randX`, drawn by the source from
`[margin, gameWidth - margin]`), and set `moveSpeed` to the config speed
times a random sign (`dirPos`). -/
def createNewBlock (s : GameState) (randX : ℚ) (dirPos : Bool) : GameState :=
  let config := getCurrentBlockConfig s.level
  let y := match s.stackedBlocks.getLast? with
    | some lastBlock => lastBlock.y - BLOCK_BASE_HEIGHT
    | none => s.baseY
  { s with
      currentBlock := some { x := randX, y := y,
                             width := config.width, height := config.height },
      moveSpeed := config.speed * (if dirPos then 1 else -1) }

/-- Outcome of a placement commit: `noop` when the commit is ignored
(game over, paused, or no active block), otherwise miss / perfect /
ordinary as judged by `placeBlock`. -/
inductive Outcome where
  | noop
  | miss
  | perfect
  | ordinary
  deriving Repr, DecidableEq

/-- placeBlock (lines 513-559, gameplay part): ignore the commit unless
playing with an active block; with a non-empty stack judge the alignment
against the top block (`distance > config.width * 0.5` is a miss ending
the game; `distance < 5` is a perfect placement); on success push the
active block and spawn the next one. The source never calls
`updateScore` here. -/
def placeBlock (s : GameState) (randX : ℚ) (dirPos : Bool) : Outcome × GameState :=
  match s.currentBlock with
  | none => (Outcome.noop, s)
  | some cur =>
    if s.gameOver || s.isPaused then (Outcome.noop, s)
    else
      match s.stackedBlocks.getLast? with
      | none =>
        (Outcome.ordinary,
         createNewBlock { s with stackedBlocks := s.stackedBlocks ++ [cur] } randX dirPos)
      | some prevBlock =>
        let config := getCurrentBlockConfig s.level
        let distance := mathAbs (prevBlock.x - cur.x)
        if config.width * (1/2) < distance then
          (Outcome.miss, handleGameOver s)
        else if distance < 5 then
          (Outcome.perfect,
           createNewBlock
             { handlePerfectPlacement s with stackedBlocks := s.stackedBlocks ++ [cur] }
             randX dirPos)
        else
          (Outcome.ordinary,
           createNewBlock { s with stackedBlocks := s.stackedBlocks ++ [cur] } randX dirPos)

/-- update (lines 276-349, gameplay part), one frame with normalised
`deltaTime`: accelerate by `moveSpeed * BLOCK_ACCELERATION * deltaTime`,
clamp the velocity, integrate the position, bounce off the play-area
edges (clamping x, scaling the velocity by `-BLOCK_BOUNCE_ELASTICITY`
and flipping `moveSpeed`), then — only when the `placementGuide` object
exists and the stack is non-empty — apply the snap-assist interpolation
toward the top block when closer than BLOCK_SNAP_THRESHOLD. -/
def update (s : GameState) (deltaTime : ℚ) : GameState :=
  match s.currentBlock with
  | none => s
  | some cur =>
    if s.gameOver || s.isPaused then s
    else
      let v1 := clamp (s.currentVelocity + s.moveSpeed * BLOCK_ACCELERATION * deltaTime)
        (-MAX_BLOCK_SPEED) MAX_BLOCK_SPEED
      let x1 := cur.x + v1 * deltaTime
      let margin := (getCurrentBlockConfig s.level).width / 2
      let x2 := if s.gameWidth - margin ≤ x1 then s.gameWidth - margin
                else if x1 ≤ margin then margin
                else x1
      let v2 := if s.gameWidth - margin ≤ x1 then v1 * (-BLOCK_BOUNCE_ELASTICITY)
                else if x1 ≤ margin then v1 * (-BLOCK_BOUNCE_ELASTICITY)
                else v1
      let ms2 := if s.gameWidth - margin ≤ x1 then s.moveSpeed * (-1)
                 else if x1 ≤ margin then s.moveSpeed * (-1)
                 else s.moveSpeed
      let x3 :=
        if placementGuide ∧ 0 < s.stackedBlocks.length then
          match s.stackedBlocks.getLast? with
          | some lastBlock =>
            let distance := mathAbs (lastBlock.x - x2)
            if distance < BLOCK_SNAP_THRESHOLD then
              linear x2 lastBlock.x ((1 - distance / BLOCK_SNAP_THRESHOLD) * (1/10) * deltaTime)
            else x2
          | none => x2
        else x2
      { s with currentBlock := some { cur with x := x3 },
               currentVelocity := v2,
               moveSpeed := ms2 }

/-- Scene `init` (lines 91-116, gameplay part): reset score, level, the
game-over and pause flags, the stack and `moveSpeed`, and load the high
score from storage when present. `perfectStreak`, `currentVelocity` and
`currentBlock` are not touched. -/
def init (s : GameState) : GameState :=
  { s with
      score := 0,
      level := 1,
      gameOver := false,
      isPaused := false,
      stackedBlocks := [],
      moveSpeed := 2,
      highScore := match s.storage with
        | some saved => saved
        | none => s.highScore }

/-- scene.restart as the source wires it (lines 669-679, 879-883):
Phaser re-runs `init` and `create` on the same scene instance, so class
field initialisers do not re-run; the gameplay effect of `create` is
spawning the first block via `createNewBlock`. -/
def restart (s : GameState) (randX : ℚ) (dirPos : Bool) : GameState :=
  createNewBlock (init s) randX dirPos

/-- The scene as the constructor (lines 84-89) plus `create`
(lines 136-169) leave it for an 800x600 canvas, before the first block
is spawned: class-field defaults with `baseY = gameHeight - GROUND_OFFSET`. -/
def scene0 : GameState :=
  { currentBlock := none,
    stackedBlocks := [],
    score := 0,
    highScore := 0,
    gameOver := false,
    isPaused := false,
    moveSpeed := 2,
    gameWidth := 800,
    gameHeight := 600,
    level := 1,
    perfectStreak := 0,
    currentVelocity := 0,
    baseY := 500,
    storage := none }

/-!
Helper lemmas and concrete states used by the claim theorems below.
-/

/-- Bounds of `clamp`: the result never exceeds the upper bound when the
bounds are ordered. -/
theorem clamp_le (value lo hi : ℚ) (h : lo ≤ hi) : clamp value lo hi ≤ hi :=
  max_le h (min_le_right _ _)

/-- Bounds of `clamp`: the result never falls below the lower bound. -/
theorem le_clamp (value lo hi : ℚ) : lo ≤ clamp value lo hi :=
  le_max_left _ _

/-- A fresh 800x600 game right after `create`: empty stack, first active
block spawned at x = 400 on the base line. -/
def sFirst : GameState :=
  { scene0 with currentBlock := some { x := 400, y := 500, width := 100, height := 50 } }

/-- A game whose single stacked block sits at x = 400 with the active
block exactly aligned above it (distance 0, a perfect placement). -/
def sPerf : GameState :=
  { scene0 with
      currentBlock := some { x := 400, y := 450, width := 100, height := 50 },
      stackedBlocks := [{ x := 400, y := 500, width := 100, height := 50 }] }

/-- A playing state whose active block at x = 100 sits 5 units from the
top stacked block at x = 105, with zero current velocity. -/
def sSnap : GameState :=
  { scene0 with
      currentBlock := some { x := 100, y := 450, width := 100, height := 50 },
      stackedBlocks := [{ x := 105, y := 500, width := 100, height := 50 }] }

/-- A mid-game state: one stacked block, score 170, level 2, a perfect
streak of 2, a moving block (velocity 3), high score 170 persisted. -/
def sMid : GameState :=
  { scene0 with
      currentBlock := some { x := 390, y := 450, width := 100, height := 50 },
      stackedBlocks := [{ x := 400, y := 500, width := 100, height := 50 }],
      score := 170, highScore := 170, storage := some 170,
      level := 2, perfectStreak := 2, currentVelocity := 3, moveSpeed := -2 }

/-- Five successive placement commits on a fresh game, alternating the
next spawn between x = 380 and x = 400 so that every placement lands at
distance 20 from the block below (an ordinary success). -/
def sRun1 : Outcome × GameState := placeBlock sFirst 380 true

/-- Second commit of the five-placement run. -/
def sRun2 : Outcome × GameState := placeBlock sRun1.2 400 true

/-- Third commit of the five-placement run. -/
def sRun3 : Outcome × GameState := placeBlock sRun2.2 380 true

/-- Fourth commit of the five-placement run. -/
def sRun4 : Outcome × GameState := placeBlock sRun3.2 400 true

/-- Fifth commit of the five-placement run. -/
def sRun5 : Outcome × GameState := placeBlock sRun4.2 380 true

/-!
Claim theorems.
-/

/-- C1: the claim states that every successful placement (ordinary or
perfect) adds a flat 10 points to the score. In the source the flat
reward lives in `updateScore`, which is defined but never invoked, so a
successful first placement leaves the score at 0 instead of 10 — even
though `updateScore` itself, had it been called, would have added 10. -/
theorem C1_flat_reward_never_applied :
    (placeBlock sFirst 380 true).1 = Outcome.ordinary ∧
    (placeBlock sFirst 380 true).2.stackedBlocks.length = 1 ∧
    (placeBlock sFirst 380 true).2.score = 0 ∧
    (updateScore sFirst).score = sFirst.score + 10 := by
  norm_num [placeBlock, createNewBlock, updateScore, updateHighScore, sFirst, scene0,
    getCurrentBlockConfig, blockTypes, BLOCK_BASE_HEIGHT]

/-- C2: the claim states that the level rises by exactly 1 whenever the
stack size becomes a positive multiple of 5. The level-up rule lives in
the dead method `updateScore`, so after five successful placements the
stack has 5 blocks but the level is still 1, not 2. -/
theorem C2_level_up_never_applied :
    sRun1.1 = Outcome.ordinary ∧ sRun2.1 = Outcome.ordinary ∧
    sRun3.1 = Outcome.ordinary ∧ sRun4.1 = Outcome.ordinary ∧
    sRun5.1 = Outcome.ordinary ∧
    sRun5.2.stackedBlocks.length = 5 ∧ sRun5.2.level = 1 := by
  norm_num [sRun1, sRun2, sRun3, sRun4, sRun5, sFirst, scene0, placeBlock,
    createNewBlock, mathAbs, getCurrentBlockConfig, blockTypes, BLOCK_BASE_HEIGHT]

/-- C3: the claim states that whenever a placement raises the score
above the high score, the high score is updated and persisted. A perfect
placement raises the score to 50 (the streak bonus is added directly in
`handlePerfectPlacement`), yet `highScore` stays 0 and nothing is
written to storage, because `updateHighScore` is reachable only from the
never-invoked `updateScore`. -/
theorem C3_highScore_never_updated :
    (placeBlock sPerf 300 true).1 = Outcome.perfect ∧
    (placeBlock sPerf 300 true).2.score = 50 ∧
    (placeBlock sPerf 300 true).2.highScore = 0 ∧
    (placeBlock sPerf 300 true).2.storage = none := by
  norm_num [placeBlock, createNewBlock, handlePerfectPlacement, sPerf, scene0,
    mathAbs, getCurrentBlockConfig, blockTypes, BLOCK_BASE_HEIGHT, MAX_MULTIPLIER]

/-- C4 counterexample: a perfect placement followed by an ordinary
placement leaves `perfectStreak` at 1, not 0 — the claim that any
ordinary placement resets the streak to 0 is false on this input. -/
theorem C4_counterexample :
    (placeBlock sPerf 380 true).1 = Outcome.perfect ∧
    (placeBlock (placeBlock sPerf 380 true).2 400 true).1 = Outcome.ordinary ∧
    (placeBlock (placeBlock sPerf 380 true).2 400 true).2.perfectStreak ≠ 0 := by
  norm_num [placeBlock, createNewBlock, handlePerfectPlacement, sPerf, scene0,
    mathAbs, getCurrentBlockConfig, blockTypes, BLOCK_BASE_HEIGHT, MAX_MULTIPLIER]

/-- C4 amended: `perfectStreak` increments by exactly 1 on a perfect
placement and is left unchanged by every other commit (ordinary, miss or
ignored) — it counts all perfect placements over the scene's lifetime
rather than the trailing streak. -/
theorem C4_streak_counts_all_perfects (s : GameState) (randX : ℚ) (dirPos : Bool) :
    ((placeBlock s randX dirPos).1 = Outcome.perfect →
      (placeBlock s randX dirPos).2.perfectStreak = s.perfectStreak + 1) ∧
    ((placeBlock s randX dirPos).1 ≠ Outcome.perfect →
      (placeBlock s randX dirPos).2.perfectStreak = s.perfectStreak) := by
  unfold placeBlock
  split
  · simp
  · split
    · simp
    · split
      · simp [createNewBlock]
      · dsimp only
        split
        · simp [handleGameOver]
        · split
          · simp [handlePerfectPlacement, createNewBlock]
          · simp [createNewBlock]

/-- C5: the placement judgement. While playing with an active block
whose width agrees with the current level's config (as it does for every
block the game spawns): an empty stack always yields a successful
ordinary placement and never a game over; against a non-empty stack with
distance `|topOfStack.x - activeBlock.x|`, the outcome is a miss exactly
when the distance exceeds half the block width, the game-over flag is
raised exactly on a miss, the outcome is perfect exactly when it is not
a miss and the distance is below 5, and ordinary otherwise. -/
theorem C5_placement_judgement (s : GameState) (b : Block) (randX : ℚ) (dirPos : Bool)
    (hb : s.currentBlock = some b)
    (hgo : s.gameOver = false) (hp : s.isPaused = false)
    (hw : b.width = (getCurrentBlockConfig s.level).width) :
    (s.stackedBlocks = [] →
      (placeBlock s randX dirPos).1 = Outcome.ordinary ∧
      (placeBlock s randX dirPos).2.gameOver = false) ∧
    (∀ top, s.stackedBlocks.getLast? = some top →
      ((placeBlock s randX dirPos).1 = Outcome.miss ↔
        b.width * (1/2) < mathAbs (top.x - b.x)) ∧
      ((placeBlock s randX dirPos).2.gameOver = true ↔
        (placeBlock s randX dirPos).1 = Outcome.miss) ∧
      ((placeBlock s randX dirPos).1 = Outcome.perfect ↔
        ¬ b.width * (1/2) < mathAbs (top.x - b.x) ∧ mathAbs (top.x - b.x) < 5) ∧
      ((placeBlock s randX dirPos).1 = Outcome.ordinary ↔
        ¬ b.width * (1/2) < mathAbs (top.x - b.x) ∧ ¬ mathAbs (top.x - b.x) < 5)) := by
  rw [hw]
  constructor
  · intro hempty
    simp [placeBlock, hb, hgo, hp, hempty, createNewBlock]
  · intro top htop
    simp only [placeBlock, hb, hgo, hp, htop, Bool.or_self, Bool.false_eq_true, if_false]
    by_cases h1 : (getCurrentBlockConfig s.level).width * (1/2) < mathAbs (top.x - b.x)
    · rw [if_pos h1]
      refine ⟨⟨fun _ => h1, fun _ => rfl⟩, ⟨fun _ => rfl, fun _ => rfl⟩,
        ⟨fun h => Outcome.noConfusion h, fun hc => absurd h1 hc.1⟩,
        ⟨fun h => Outcome.noConfusion h, fun hc => absurd h1 hc.1⟩⟩
    · rw [if_neg h1]
      by_cases h2 : mathAbs (top.x - b.x) < 5
      · rw [if_pos h2]
        refine ⟨⟨fun h => Outcome.noConfusion h, fun hc => absurd hc h1⟩,
          ⟨fun hgol => by
            simp only [createNewBlock, handlePerfectPlacement, hgo,
              Bool.false_eq_true] at hgol,
           fun h => Outcome.noConfusion h⟩,
          ⟨fun _ => ⟨h1, h2⟩, fun _ => rfl⟩,
          ⟨fun h => Outcome.noConfusion h, fun hc => absurd h2 hc.2⟩⟩
      · rw [if_neg h2]
        refine ⟨⟨fun h => Outcome.noConfusion h, fun hc => absurd hc h1⟩,
          ⟨fun hgol => by
            simp only [createNewBlock, handlePerfectPlacement, hgo,
              Bool.false_eq_true] at hgol,
           fun h => Outcome.noConfusion h⟩,
          ⟨fun h => Outcome.noConfusion h, fun hc => absurd hc.2 h2⟩,
          ⟨fun _ => ⟨h1, h2⟩, fun _ => rfl⟩⟩

/-- C5 witness: the judgement instantiated at the concrete state `sPerf`
(one stacked block at x = 400, active block aligned at x = 400). -/
theorem C5_witness :
    sPerf.currentBlock = some { x := 400, y := 450, width := 100, height := 50 } ∧
    sPerf.gameOver = false ∧ sPerf.isPaused = false ∧
    Block.width { x := 400, y := 450, width := 100, height := 50 } =
      (getCurrentBlockConfig sPerf.level).width ∧
    ((sPerf.stackedBlocks = [] →
      (placeBlock sPerf 300 true).1 = Outcome.ordinary ∧
      (placeBlock sPerf 300 true).2.gameOver = false) ∧
    (∀ top, sPerf.stackedBlocks.getLast? = some top →
      ((placeBlock sPerf 300 true).1 = Outcome.miss ↔
        (100 : ℚ) * (1/2) < mathAbs (top.x - 400)) ∧
      ((placeBlock sPerf 300 true).2.gameOver = true ↔
        (placeBlock sPerf 300 true).1 = Outcome.miss) ∧
      ((placeBlock sPerf 300 true).1 = Outcome.perfect ↔
        ¬ (100 : ℚ) * (1/2) < mathAbs (top.x - 400) ∧ mathAbs (top.x - 400) < 5) ∧
      ((placeBlock sPerf 300 true).1 = Outcome.ordinary ↔
        ¬ (100 : ℚ) * (1/2) < mathAbs (top.x - 400) ∧ ¬ mathAbs (top.x - 400) < 5))) :=
  ⟨rfl, rfl, rfl, rfl,
    C5_placement_judgement sPerf { x := 400, y := 450, width := 100, height := 50 }
      300 true rfl rfl rfl rfl⟩

/-- C6: on a perfect placement (not a miss, distance below 5) the streak
increments, and the score gains exactly `50 * min (streak+1) 5`. -/
theorem C6_perfect_bonus (s : GameState) (b top : Block) (randX : ℚ) (dirPos : Bool)
    (hb : s.currentBlock = some b)
    (hgo : s.gameOver = false) (hp : s.isPaused = false)
    (htop : s.stackedBlocks.getLast? = some top)
    (hnotmiss : ¬ (getCurrentBlockConfig s.level).width * (1/2) < mathAbs (top.x - b.x))
    (hperf : mathAbs (top.x - b.x) < 5) :
    (placeBlock s randX dirPos).1 = Outcome.perfect ∧
    (placeBlock s randX dirPos).2.perfectStreak = s.perfectStreak + 1 ∧
    (placeBlock s randX dirPos).2.score =
      s.score + 50 * min (s.perfectStreak + 1) MAX_MULTIPLIER := by
  simp only [placeBlock, hb, hgo, hp, htop, Bool.or_self, Bool.false_eq_true, if_false]
  rw [if_neg hnotmiss, if_pos hperf]
  refine ⟨rfl, ?_, ?_⟩ <;>
    simp only [createNewBlock, handlePerfectPlacement]

/-- C6 witness: the perfect bonus at the concrete state `sPerf`,
the first perfect placement of a game (streak 0 to 1, bonus 50). -/
theorem C6_witness :
    sPerf.currentBlock = some { x := 400, y := 450, width := 100, height := 50 } ∧
    sPerf.gameOver = false ∧ sPerf.isPaused = false ∧
    sPerf.stackedBlocks.getLast? = some { x := 400, y := 500, width := 100, height := 50 } ∧
    ¬ (getCurrentBlockConfig sPerf.level).width * (1/2) < mathAbs ((400 : ℚ) - 400) ∧
    mathAbs ((400 : ℚ) - 400) < 5 ∧
    ((placeBlock sPerf 300 true).1 = Outcome.perfect ∧
     (placeBlock sPerf 300 true).2.perfectStreak = sPerf.perfectStreak + 1 ∧
     (placeBlock sPerf 300 true).2.score =
       sPerf.score + 50 * min (sPerf.perfectStreak + 1) MAX_MULTIPLIER) :=
  ⟨rfl, rfl, rfl, rfl,
    by norm_num [getCurrentBlockConfig, blockTypes, mathAbs, sPerf, scene0],
    by norm_num [mathAbs],
    C6_perfect_bonus sPerf { x := 400, y := 450, width := 100, height := 50 }
      { x := 400, y := 500, width := 100, height := 50 } 300 true rfl rfl rfl rfl
      (by norm_num [getCurrentBlockConfig, blockTypes, mathAbs, sPerf, scene0])
      (by norm_num [mathAbs])⟩

/-- C7: the claim states the snap-assist interpolation runs on every
playing frame whose distance to the top block is below
BLOCK_SNAP_THRESHOLD. In the source the whole snap block is guarded by
the truthiness of `placementGuide`, an object that is never created, so
the pull never happens: at `sSnap` (distance 23/5 < 10 after motion) the
frame leaves x at 502/5, while the claimed interpolation target
`linear x top.x ((1 - distance/threshold) * 0.1 * dt)` differs from it. -/
theorem C7_snap_assist_never_runs :
    placementGuide = false ∧
    (update sSnap 1).currentBlock =
      some { x := 502/5, y := 450, width := 100, height := 50 } ∧
    mathAbs (105 - 502/5) < BLOCK_SNAP_THRESHOLD ∧
    linear (502/5) 105 ((1 - mathAbs (105 - 502/5) / BLOCK_SNAP_THRESHOLD) * (1/10) * 1) ≠
      502/5 := by
  refine ⟨rfl, ?_, ?_, ?_⟩
  · simp [update, sSnap, scene0, clamp, linear, placementGuide, mathAbs,
      getCurrentBlockConfig, blockTypes, BLOCK_ACCELERATION, MAX_BLOCK_SPEED,
      BLOCK_BOUNCE_ELASTICITY, BLOCK_SNAP_THRESHOLD]
    norm_num
  · norm_num [mathAbs, BLOCK_SNAP_THRESHOLD]
  · norm_num [mathAbs, linear, BLOCK_SNAP_THRESHOLD]

/-- C8 counterexample: the claim states the per-frame velocity increment
is `sign(moveSpeed) * BLOCK_ACCELERATION * dt`. At `sSnap` (velocity 0,
moveSpeed 2, dt 1) the code adds the full `moveSpeed * BLOCK_ACCELERATION
* dt = 2/5`, not the claimed `1 * BLOCK_ACCELERATION * 1 = 1/5`. -/
theorem C8_counterexample :
    sSnap.moveSpeed = 2 ∧ sSnap.currentVelocity = 0 ∧
    (update sSnap 1).currentVelocity = sSnap.moveSpeed * BLOCK_ACCELERATION * 1 ∧
    (update sSnap 1).currentVelocity ≠
      clamp (sSnap.currentVelocity + 1 * BLOCK_ACCELERATION * 1)
        (-MAX_BLOCK_SPEED) MAX_BLOCK_SPEED := by
  refine ⟨rfl, rfl, ?_, ?_⟩ <;>
    · simp [update, sSnap, scene0, clamp, placementGuide, mathAbs,
        getCurrentBlockConfig, blockTypes, BLOCK_ACCELERATION, MAX_BLOCK_SPEED,
        BLOCK_BOUNCE_ELASTICITY, BLOCK_SNAP_THRESHOLD]
      norm_num

/-- C8 amended: on a playing frame the velocity update is
`velocity += moveSpeed * BLOCK_ACCELERATION * dt` — the full signed
nominal moveSpeed, whose magnitude is the block type's speed, not merely
its sign — then clamped to [-MAX_BLOCK_SPEED, MAX_BLOCK_SPEED]; this is
the frame's final velocity whenever no edge bounce occurs. -/
theorem C8_velocity_update (s : GameState) (b : Block) (deltaTime : ℚ)
    (hb : s.currentBlock = some b)
    (hgo : s.gameOver = false) (hp : s.isPaused = false)
    (hhi : b.x + clamp (s.currentVelocity + s.moveSpeed * BLOCK_ACCELERATION * deltaTime)
        (-MAX_BLOCK_SPEED) MAX_BLOCK_SPEED * deltaTime <
        s.gameWidth - (getCurrentBlockConfig s.level).width / 2)
    (hlo : (getCurrentBlockConfig s.level).width / 2 <
        b.x + clamp (s.currentVelocity + s.moveSpeed * BLOCK_ACCELERATION * deltaTime)
        (-MAX_BLOCK_SPEED) MAX_BLOCK_SPEED * deltaTime) :
    (update s deltaTime).currentVelocity =
      clamp (s.currentVelocity + s.moveSpeed * BLOCK_ACCELERATION * deltaTime)
        (-MAX_BLOCK_SPEED) MAX_BLOCK_SPEED := by
  simp only [update, hb, hgo, hp, Bool.or_self, Bool.false_eq_true, if_false]
  rw [if_neg (not_le.mpr hhi), if_neg (not_le.mpr hlo)]

/-- C8 witness: the amended velocity rule at the concrete state `sSnap`
with dt = 1 (no bounce: the new x, 502/5, is strictly inside the play
area). -/
theorem C8_witness :
    sSnap.currentBlock = some { x := 100, y := 450, width := 100, height := 50 } ∧
    sSnap.gameOver = false ∧ sSnap.isPaused = false ∧
    ((100 : ℚ) + clamp (sSnap.currentVelocity + sSnap.moveSpeed * BLOCK_ACCELERATION * 1)
        (-MAX_BLOCK_SPEED) MAX_BLOCK_SPEED * 1 <
        sSnap.gameWidth - (getCurrentBlockConfig sSnap.level).width / 2) ∧
    ((getCurrentBlockConfig sSnap.level).width / 2 <
        (100 : ℚ) + clamp (sSnap.currentVelocity + sSnap.moveSpeed * BLOCK_ACCELERATION * 1)
        (-MAX_BLOCK_SPEED) MAX_BLOCK_SPEED * 1) ∧
    (update sSnap 1).currentVelocity =
      clamp (sSnap.currentVelocity + sSnap.moveSpeed * BLOCK_ACCELERATION * 1)
        (-MAX_BLOCK_SPEED) MAX_BLOCK_SPEED :=
  ⟨rfl, rfl, rfl,
    by norm_num [clamp, sSnap, scene0, getCurrentBlockConfig, blockTypes,
      BLOCK_ACCELERATION, MAX_BLOCK_SPEED, min_def, max_def],
    by norm_num [clamp, sSnap, scene0, getCurrentBlockConfig, blockTypes,
      BLOCK_ACCELERATION, MAX_BLOCK_SPEED, min_def, max_def],
    C8_velocity_update sSnap { x := 100, y := 450, width := 100, height := 50 } 1
      rfl rfl rfl
      (by norm_num [clamp, sSnap, scene0, getCurrentBlockConfig, blockTypes,
        BLOCK_ACCELERATION, MAX_BLOCK_SPEED, min_def, max_def])
      (by norm_num [clamp, sSnap, scene0, getCurrentBlockConfig, blockTypes,
        BLOCK_ACCELERATION, MAX_BLOCK_SPEED, min_def, max_def])⟩

/-- C9: after a playing frame the velocity stays within
[-MAX_BLOCK_SPEED, MAX_BLOCK_SPEED] and the active block's x stays
within [margin, gameWidth - margin] with margin half the current block
width, provided the block fits in the play area. -/
theorem C9_motion_bounds (s : GameState) (b : Block) (deltaTime : ℚ)
    (hb : s.currentBlock = some b)
    (hgo : s.gameOver = false) (hp : s.isPaused = false)
    (hwidth : (getCurrentBlockConfig s.level).width ≤ s.gameWidth) :
    (-MAX_BLOCK_SPEED ≤ (update s deltaTime).currentVelocity ∧
      (update s deltaTime).currentVelocity ≤ MAX_BLOCK_SPEED) ∧
    ∀ b2, (update s deltaTime).currentBlock = some b2 →
      (getCurrentBlockConfig s.level).width / 2 ≤ b2.x ∧
      b2.x ≤ s.gameWidth - (getCurrentBlockConfig s.level).width / 2 := by
  have hclo := le_clamp (s.currentVelocity + s.moveSpeed * BLOCK_ACCELERATION * deltaTime)
    (-MAX_BLOCK_SPEED) MAX_BLOCK_SPEED
  have hchi := clamp_le (s.currentVelocity + s.moveSpeed * BLOCK_ACCELERATION * deltaTime)
    (-MAX_BLOCK_SPEED) MAX_BLOCK_SPEED (by norm_num [MAX_BLOCK_SPEED])
  simp only [update, hb, hgo, hp, Bool.or_self, Bool.false_eq_true, if_false,
    placementGuide, false_and]
  simp only [MAX_BLOCK_SPEED, BLOCK_BOUNCE_ELASTICITY] at hclo hchi ⊢
  constructor
  · split_ifs with hA hB
    · constructor <;> nlinarith [hclo, hchi]
    · constructor <;> nlinarith [hclo, hchi]
    · exact ⟨hclo, hchi⟩
  · intro b2 hb2
    simp only [Option.some.injEq] at hb2
    rw [← hb2]
    split_ifs with hA hB
    · constructor <;> linarith
    · constructor <;> linarith
    · push_neg at hA hB
      constructor <;> linarith

/-- C9 witness: the motion bounds at the fresh game state `sFirst` with
dt = 1 (standard block, width 100, play area 800). -/
theorem C9_witness :
    sFirst.currentBlock = some { x := 400, y := 500, width := 100, height := 50 } ∧
    sFirst.gameOver = false ∧ sFirst.isPaused = false ∧
    (getCurrentBlockConfig sFirst.level).width ≤ sFirst.gameWidth ∧
    ((-MAX_BLOCK_SPEED ≤ (update sFirst 1).currentVelocity ∧
      (update sFirst 1).currentVelocity ≤ MAX_BLOCK_SPEED) ∧
    ∀ b2, (update sFirst 1).currentBlock = some b2 →
      (getCurrentBlockConfig sFirst.level).width / 2 ≤ b2.x ∧
      b2.x ≤ sFirst.gameWidth - (getCurrentBlockConfig sFirst.level).width / 2) :=
  ⟨rfl, rfl, rfl,
    by norm_num [getCurrentBlockConfig, blockTypes, sFirst, scene0],
    C9_motion_bounds sFirst { x := 400, y := 500, width := 100, height := 50 } 1
      rfl rfl rfl
      (by norm_num [getCurrentBlockConfig, blockTypes, sFirst, scene0])⟩

/-- C10: the claim states a restart discards all per-game state (score,
level, stack, motion including velocity, perfect streak), keeping only
the high score. The restart path (`init` then the first-block spawn of
`create`, on the same scene instance) does reset score, level, stack and
the flags and does keep the high score, but it never touches
`perfectStreak` or `currentVelocity` — at `sMid` (streak 2, velocity 3)
both survive the restart, contradicting `init`'s own comment that it
resets all game state. -/
theorem C10_restart_keeps_streak_and_velocity :
    (restart sMid 400 true).score = 0 ∧
    (restart sMid 400 true).level = 1 ∧
    (restart sMid 400 true).stackedBlocks = [] ∧
    (restart sMid 400 true).gameOver = false ∧
    (restart sMid 400 true).moveSpeed = 2 ∧
    (restart sMid 400 true).highScore = 170 ∧
    (restart sMid 400 true).perfectStreak ≠ 0 ∧
    (restart sMid 400 true).perfectStreak = 2 ∧
    (restart sMid 400 true).currentVelocity ≠ 0 ∧
    (restart sMid 400 true).currentVelocity = 3 := by
  norm_num [restart, init, createNewBlock, sMid, scene0, getCurrentBlockConfig,
    blockTypes, BLOCK_BASE_HEIGHT]

end Rascacielos
